import Mathlib

/-!
Verification of the pantry-pilot replenishment core.

The JavaScript source is shallowly embedded: numbers become `ℚ` (JS
arithmetic on the values exercised here is exact), timestamps become `ℚ`
milliseconds since the epoch, `null`/`undefined` fields become `Option`,
and the orchestrator's external port calls are recorded as explicit lists
of invocations in the run output.
-/

namespace PantryPilot

/-- Milliseconds per day, the divisor 86400000 used throughout the source. -/
def msPerDay : ℚ := 86400000

/-- Conversion divisor 30.44 used by `Product.getAvgDailyConsumption`. -/
def monthlyDivisor : ℚ := 761 / 25

/-- JS `Math.max`, written as a conditional so that it evaluates. -/
def jsMax (a b : ℚ) : ℚ :=
  if a ≤ b then b else a

/-- JS `a || b` for an optional numeric `a` (null/undefined and 0 are falsy). -/
def jsOrQ (a : Option ℚ) (b : ℚ) : ℚ :=
  match a with
  | some v => if v = 0 then b else v
  | none => b

/-- JS `a || b` for an optional string `a` (null/undefined and the empty string are falsy). -/
def jsOrStr (a : Option String) (b : String) : String :=
  match a with
  | some s => if s = "" then b else s
  | none => b

/-- The `autoSubscription` object built by the sheet mapper. -/
structure AutoSub where
  active : Bool
  details : Option String
deriving DecidableEq, Repr

/-- The `buy` reference object (place/url pair). -/
structure BuyRef where
  place : Option String
  url : Option String
deriving DecidableEq, Repr

/-- Reason codes of `ReplenishmentPolicy.computeDecision`, a closed enumeration. -/
inductive Reason
  | autoSubscriptionActive
  | depletedOrInvalid
  | insufficientConsumptionData
  | withinTargetWindow
  | sufficientStock
deriving DecidableEq, Repr

/-- The snake-case string the source stores for each reason code. -/
def Reason.toStr : Reason → String
  | .autoSubscriptionActive => "auto_subscription_active"
  | .depletedOrInvalid => "depleted_or_invalid"
  | .insufficientConsumptionData => "insufficient_consumption_data"
  | .withinTargetWindow => "within_target_window"
  | .sufficientStock => "sufficient_stock"

/-- The `Product` entity (src/domain/entities/Product.js), input fields plus
the derived fields the orchestrator rewrites. -/
structure Product where
  id : String
  name : String
  brand : Option String
  unit : String
  qtyRemaining : ℚ
  avgDailyConsumption : Option ℚ
  avgMonthlyConsumption : Option ℚ
  lastReplenishedAt : Option ℚ
  autoSubscription : Option AutoSub
  buy : Option BuyRef
  leadTimeDays : ℚ
  safetyStockDays : ℚ
  minOrderQty : Option ℚ
  packSize : Option ℚ
  needsReplenishment : Bool
  replenishByDate : Option ℚ
  recommendedOrderQty : Option ℚ
  reason : Option String
  lastCheckAt : Option ℚ
deriving DecidableEq, Repr

/-- Monthly-rate fallback inside `getAvgDailyConsumption`. -/
def Product.monthlyDaily (p : Product) : Option ℚ :=
  match p.avgMonthlyConsumption with
  | some m => if 0 < m then some (m / monthlyDivisor) else none
  | none => none

/-- `Product.getAvgDailyConsumption`: the daily rate when present and positive,
else the monthly rate divided by 30.44 when present and positive, else null. -/
def Product.getAvgDailyConsumption (p : Product) : Option ℚ :=
  match p.avgDailyConsumption with
  | some d => if 0 < d then some d else p.monthlyDaily
  | none => p.monthlyDaily

/-- `Product.hasAutoSubscription`: `autoSubscription?.active === true`. -/
def Product.hasAutoSubscription (p : Product) : Bool :=
  match p.autoSubscription with
  | some a => a.active
  | none => false

/-- `Product.calculateCurrentStock`. Note the source guard
`if (!this.lastReplenishedAt || !this.qtyRemaining)`: a zero quantity is
falsy in JS, so a product with `qtyRemaining = 0` is never projected. -/
def Product.calculateCurrentStock (p : Product) (now : ℚ) : ℚ :=
  match p.lastReplenishedAt with
  | none => p.qtyRemaining
  | some last =>
    if p.qtyRemaining = 0 then p.qtyRemaining
    else
      match p.getAvgDailyConsumption with
      | none => p.qtyRemaining
      | some avgDaily =>
        if avgDaily ≤ 0 then p.qtyRemaining
        else jsMax 0 (p.qtyRemaining - avgDaily * ((now - last) / msPerDay))

/-- `Product.getDaysSinceLastReplenishment`. -/
def Product.getDaysSinceLastReplenishment (p : Product) (now : ℚ) : Option ℚ :=
  p.lastReplenishedAt.map (fun last => (now - last) / msPerDay)

/-- Options destructured by `ReplenishmentPolicy.computeDecision`; `none`
stands for an absent (undefined) override. -/
structure PolicyOptions where
  now : ℚ
  reviewHorizonDays : Option ℚ
  overrideTargetWindowDays : Option ℚ
  autoDecrementStock : Bool
deriving DecidableEq, Repr

/-- The decision record returned by `ReplenishmentPolicy.computeDecision`. -/
structure Decision where
  needsReplenishment : Bool
  recommendedOrderQty : Option ℚ
  replenishByDate : Option ℚ
  reason : Reason
  daysUntilDepletion : Option ℚ
  currentStock : ℚ
  daysSinceReplenishment : Option ℚ
deriving DecidableEq, Repr

/-- The guard `!avgDaily || avgDaily <= 0` and the twin guard
`avgDaily && avgDaily > 0`: the rate survives exactly when it is positive. -/
def usableRate (avgDaily : Option ℚ) : Option ℚ :=
  match avgDaily with
  | some r => if 0 < r then some r else none
  | none => none

/-- Line 36 of the policy: projected stock when `autoDecrementStock`, else the
stored quantity. -/
def currentStockOf (p : Product) (o : PolicyOptions) : ℚ :=
  if o.autoDecrementStock then p.calculateCurrentStock o.now else p.qtyRemaining

/-- `overrideTargetWindowDays ?? (leadTimeDays + safetyStockDays)` (null-only fallback). -/
def effectiveTargetWindowDays (o : Option ℚ) (p : Product) : ℚ :=
  o.getD (p.leadTimeDays + p.safetyStockDays)

/-- The engine's review horizon: the destructuring default 14 applies only
when the option is absent. -/
def effectiveReviewHorizonDays (o : Option ℚ) : ℚ :=
  o.getD 14

/-- `ReplenishmentPolicy._applyOrderConstraints`. -/
def applyOrderConstraints (baseQty : ℚ) (p : Product) : ℚ :=
  let qty := jsMax baseQty (jsOrQ p.minOrderQty 1)
  match p.packSize with
  | some ps => if 1 < ps then (Rat.ceil (qty / ps) : ℚ) * ps else qty
  | none => qty

/-- `ReplenishmentPolicy.computeDecision`. -/
def computeDecision (p : Product) (o : PolicyOptions) : Decision :=
  let avgDaily := p.getAvgDailyConsumption
  let cs := currentStockOf p o
  let dsr := p.getDaysSinceLastReplenishment o.now
  if p.hasAutoSubscription = true then
    { needsReplenishment := false
      recommendedOrderQty := none
      replenishByDate := none
      reason := Reason.autoSubscriptionActive
      daysUntilDepletion := (usableRate avgDaily).map (fun r => cs / r)
      currentStock := cs
      daysSinceReplenishment := dsr }
  else
    match usableRate avgDaily with
    | none =>
      if cs ≤ 0 then
        { needsReplenishment := true
          recommendedOrderQty := some (jsMax 1 (jsOrQ p.minOrderQty (jsOrQ p.packSize 1)))
          replenishByDate := none
          reason := Reason.depletedOrInvalid
          daysUntilDepletion := none
          currentStock := cs
          daysSinceReplenishment := dsr }
      else
        { needsReplenishment := false
          recommendedOrderQty := none
          replenishByDate := none
          reason := Reason.insufficientConsumptionData
          daysUntilDepletion := none
          currentStock := cs
          daysSinceReplenishment := dsr }
    | some avgRate =>
      let daysUntilDepletion := cs / avgRate
      let targetWindowDays := effectiveTargetWindowDays o.overrideTargetWindowDays p
      if daysUntilDepletion ≤ targetWindowDays then
        let targetCoverageDays := targetWindowDays + effectiveReviewHorizonDays o.reviewHorizonDays
        let targetQty : ℚ := (Rat.ceil (jsMax 0 (targetCoverageDays * avgRate - cs)) : ℚ)
        let daysToReplenish := jsMax 0 (daysUntilDepletion - p.leadTimeDays)
        { needsReplenishment := true
          recommendedOrderQty := some (applyOrderConstraints targetQty p)
          replenishByDate := some (o.now + daysToReplenish * msPerDay)
          reason := Reason.withinTargetWindow
          daysUntilDepletion := some daysUntilDepletion
          currentStock := cs
          daysSinceReplenishment := dsr }
      else
        { needsReplenishment := false
          recommendedOrderQty := none
          replenishByDate := none
          reason := Reason.sufficientStock
          daysUntilDepletion := some daysUntilDepletion
          currentStock := cs
          daysSinceReplenishment := dsr }

/-! Orchestrator (src/domain/usecases/CheckAndNotifyReplenishment.js),
modelled as a pure function recording each persistence and notification
port invocation in the run output. -/

/-- The `policyOverrides` request object; `none` is an absent field. -/
structure PolicyOverrides where
  reviewHorizonDays : Option ℚ
  overrideTargetWindowDays : Option ℚ
  autoDecrementStock : Option Bool
  updateCalculatedQuantities : Bool
deriving DecidableEq, Repr

/-- The `notification` request object. -/
structure NotificationOptions where
  enabled : Bool
  dryRun : Bool
  subjPre : Option String
deriving DecidableEq, Repr

/-- Calendar day of a UTC millisecond timestamp: the effect of
`date.toISOString().slice(0, 10)`, which keeps the date and drops the
time-of-day component. -/
def dayOf (t : ℚ) : ℤ :=
  Rat.floor (t / msPerDay)

/-- One result row of the orchestrator (its `resultItem` literal). -/
structure ResultItem where
  id : String
  name : String
  brand : Option String
  unit : String
  qtyRemaining : ℚ
  currentStock : ℚ
  avgDaily : Option ℚ
  daysUntilDepletion : Option ℚ
  daysSinceReplenishment : Option ℚ
  needsReplenishment : Bool
  recommendedOrderQty : Option ℚ
  replenishByDate : Option ℤ
  reason : Reason
  buy : Option BuyRef
deriving DecidableEq, Repr

/-- Builds the orchestrator's result row from a product and its decision;
the replenish-by timestamp is truncated to its calendar day as in
`decision.replenishByDate?.toISOString()?.slice(0, 10) || null`. -/
def mkResultItem (p : Product) (d : Decision) : ResultItem :=
  { id := p.id
    name := p.name
    brand := p.brand
    unit := p.unit
    qtyRemaining := p.qtyRemaining
    currentStock := d.currentStock
    avgDaily := p.getAvgDailyConsumption
    daysUntilDepletion := d.daysUntilDepletion
    daysSinceReplenishment := d.daysSinceReplenishment
    needsReplenishment := d.needsReplenishment
    recommendedOrderQty := d.recommendedOrderQty
    replenishByDate := d.replenishByDate.map dayOf
    reason := d.reason
    buy := p.buy }

/-- The cloned product carrying the refreshed derived attributes; quantity is
rewritten only under `updateCalculatedQuantities` when the projected stock
differs from the stored one. -/
def applyDecision (p : Product) (d : Decision) (now : ℚ) (updateCalc : Bool) : Product :=
  { p with
    needsReplenishment := d.needsReplenishment
    recommendedOrderQty := d.recommendedOrderQty
    replenishByDate := d.replenishByDate
    reason := some d.reason.toStr
    lastCheckAt := some now
    qtyRemaining :=
      if updateCalc = true ∧ d.currentStock ≠ p.qtyRemaining then d.currentStock
      else p.qtyRemaining }

/-- The report message handed to the notification port, kept as its
construction inputs: subject components and the exact rows rendered. -/
structure EmailMessage where
  subjPre : String
  itemCount : ℕ
  generatedDay : ℤ
  dryRun : Bool
  items : List ResultItem
deriving DecidableEq, Repr

/-- `_buildEmailMessage`. -/
def buildEmailMessage (items : List ResultItem) (generatedAt : ℚ)
    (subjPre : String) (dry : Bool) : EmailMessage :=
  { subjPre := subjPre
    itemCount := items.length
    generatedDay := dayOf generatedAt
    dryRun := dry
    items := items }

/-- The `policy` block of the Summary. Both fields fall back via JS `||`,
which also treats a 0 override as absent. -/
structure PolicyReport where
  targetWindowDays : ℚ
  reviewHorizonDays : ℚ
deriving DecidableEq, Repr

/-- The Summary returned by `execute`. -/
structure Summary where
  checkedCount : ℕ
  needsReplenishmentCount : ℕ
  generatedAt : ℚ
  policy : PolicyReport
  items : List ResultItem
deriving DecidableEq, Repr

/-- One `saveProducts` invocation: the batch and its `updateQuantities` flag. -/
structure SaveCall where
  updates : List Product
  updateQuantities : Bool
deriving DecidableEq, Repr

/-- A full run: the Summary plus the recorded port invocations. -/
structure RunOutput where
  summary : Summary
  saveCalls : List SaveCall
  sendCalls : List EmailMessage
deriving DecidableEq, Repr

/-- The options object the orchestrator hands to `computeDecision`; the
engine flag is `policyOverrides.autoDecrementStock !== false`. -/
def engineOpts (now : ℚ) (ov : PolicyOverrides) : PolicyOptions :=
  { now := now
    reviewHorizonDays := ov.reviewHorizonDays
    overrideTargetWindowDays := ov.overrideTargetWindowDays
    autoDecrementStock := decide (ov.autoDecrementStock ≠ some false) }

/-- `CheckAndNotifyReplenishment.execute` over an already-loaded product
list and a clock instant `now`. -/
def execute (products : List Product) (now : ℚ) (ov : PolicyOverrides)
    (ntf : NotificationOptions) : RunOutput :=
  let opts : PolicyOptions := engineOpts now ov
  let results := products.map (fun p => mkResultItem p (computeDecision p opts))
  let updates := products.map (fun p =>
    applyDecision p (computeDecision p opts) now ov.updateCalculatedQuantities)
  let saveCalls : List SaveCall :=
    if ntf.dryRun = true then []
    else [{ updates := updates, updateQuantities := ov.updateCalculatedQuantities }]
  let itemsToNotify := results.filter (fun r => r.needsReplenishment)
  let sendCalls : List EmailMessage :=
    if ntf.enabled = true ∧ 0 < itemsToNotify.length then
      if ntf.dryRun = true then []
      else [buildEmailMessage itemsToNotify now
              (jsOrStr ntf.subjPre "[Home Inventory]") ntf.dryRun]
    else []
  let policy : PolicyReport :=
    { targetWindowDays :=
        jsOrQ ov.overrideTargetWindowDays
          (match updates.head? with
           | some u => u.leadTimeDays + u.safetyStockDays
           | none => 5)
      reviewHorizonDays := jsOrQ ov.reviewHorizonDays 14 }
  { summary :=
      { checkedCount := results.length
        needsReplenishmentCount := itemsToNotify.length
        generatedAt := now
        policy := policy
        items := results }
    saveCalls := saveCalls
    sendCalls := sendCalls }

/-! Sheet-row mapper (src/adapters/mappers/SheetRowMapper.js) and the
row-filtering loop of `GoogleSheetsInventoryRepository.listProducts`. -/

/-- ASCII whitespace recognised by the trim model. -/
def isWs (c : Char) : Bool :=
  decide (c = ' ' ∨ c = '\t' ∨ c = '\n' ∨ c = '\r')

/-- JS `String.prototype.trim` on the ASCII data the sheet holds. -/
def jsTrim (s : String) : String :=
  String.mk (((s.toList.dropWhile isWs).reverse.dropWhile isWs).reverse)

/-- Lower-cases one ASCII letter. -/
def lowerChar (c : Char) : Char :=
  if decide ('A' ≤ c ∧ c ≤ 'Z') = true then Char.ofNat (c.toNat + 32) else c

/-- JS `String.prototype.toLowerCase` on ASCII data. -/
def jsToLowerCase (s : String) : String :=
  String.mk (s.toList.map lowerChar)

/-- A raw spreadsheet cell value. Accessing a cell past the end of a row
yields `undefined`, which behaves like `null` in every mapper check, so
both are modelled by `null`. -/
inductive CellV
  | str (s : String)
  | num (q : ℚ)
  | boolv (b : Bool)
  | null
deriving DecidableEq, Repr

/-- JS truthiness of a cell value. -/
def CellV.truthy : CellV → Bool
  | .str s => decide (s ≠ "")
  | .num q => decide (q ≠ 0)
  | .boolv b => b
  | .null => false

/-- JS `String(value)`; numeric formatting is modelled by the rational
printer, which agrees with JS on the integer values exercised here. -/
def CellV.toStr : CellV → String
  | .str s => s
  | .num q => toString q
  | .boolv true => "true"
  | .boolv false => "false"
  | .null => "null"

/-- Value of a digit run, `none` when a non-digit occurs. -/
def digitsVal (l : List Char) : Option ℕ :=
  l.foldl
    (fun acc c =>
      match acc with
      | none => none
      | some n => if c.isDigit then some (10 * n + (c.toNat - 48)) else none)
    (some 0)

/-- Unsigned part of JS `Number(string)`: decimal digits with at most one
dot; anything else is NaN (`none`). -/
def jsParseUnsigned (cs : List Char) : Option ℚ :=
  let intPart := cs.takeWhile (fun c => c != '.')
  let rest := cs.dropWhile (fun c => c != '.')
  match rest with
  | [] => if intPart = [] then none else (digitsVal intPart).map (fun n => (n : ℚ))
  | _ :: fracPart =>
    if fracPart.contains '.' then none
    else if intPart = [] ∧ fracPart = [] then none
    else
      match (if intPart = [] then some 0 else digitsVal intPart),
            (if fracPart = [] then some 0 else digitsVal fracPart) with
      | some a, some b => some ((a : ℚ) + (b : ℚ) / (10 ^ fracPart.length : ℚ))
      | _, _ => none

/-- JS `Number(string)` on the decimal literals the sheet produces: trimmed,
optionally signed; a blank string is 0; unparseable means NaN (`none`). -/
def jsStrToNum (s : String) : Option ℚ :=
  match (jsTrim s).toList with
  | [] => some 0
  | c :: rest =>
    if c = '-' then (jsParseUnsigned rest).map (fun q => -q)
    else if c = '+' then jsParseUnsigned rest
    else jsParseUnsigned (c :: rest)

/-- `SheetRowMapper._parseNumber` with a null default: `none` means the
caller's default applies (missing cell, empty string, or NaN). -/
def parseNum (v : CellV) : Option ℚ :=
  match v with
  | .null => none
  | .str s => if s = "" then none else jsStrToNum s
  | .num q => some q
  | .boolv b => some (if b then 1 else 0)

/-- `SheetRowMapper._parseBoolean`. `String(number)` is never the word
true, so numeric cells map to false. -/
def parseBoolean : CellV → Bool
  | .null => false
  | .str s => if s = "" then false else decide (jsToLowerCase s = "true")
  | .boolv b => b
  | .num _ => false

/-- `SheetRowMapper._parseDate`. A numeric cell is an epoch timestamp as in
`new Date(number)`; calendar-string parsing is outside this model, so a
non-empty string behaves as an unparseable date (`null`), and no row in the
claims carries a string-valued date cell. -/
def parseDate (v : CellV) : Option ℚ :=
  match v with
  | .null => none
  | .str _ => none
  | .num q => some q
  | .boolv _ => none

/-- Array destructuring `row[i]`: `undefined` (here `null`) past the end. -/
def getCell (row : List CellV) (i : ℕ) : CellV :=
  row.getD i CellV.null

/-- `SheetRowMapper.rowToProduct`: `Except.error` models a thrown
`ValidationError` (including one wrapping a `Product` constructor throw),
`.ok none` the early null return on an empty row. -/
def rowToProduct (row : List CellV) : Except String (Option Product) :=
  if row.length = 0 then Except.ok none
  else if ¬ ((getCell row 0).truthy = true ∧ (getCell row 1).truthy = true ∧
             (getCell row 3).truthy = true) then
    Except.error "missing required fields"
  else
    let idStr := jsTrim ((getCell row 0).toStr)
    let nameStr := jsTrim ((getCell row 1).toStr)
    let unitStr := jsToLowerCase (jsTrim ((getCell row 3).toStr))
    let qty := (parseNum (getCell row 4)).getD 0
    if idStr = "" ∨ nameStr = "" then Except.error "invalid id or name"
    else if ¬ (unitStr = "count" ∨ unitStr = "ml" ∨ unitStr = "g") then
      Except.error "invalid unit"
    else if qty < 0 then Except.error "invalid qtyRemaining"
    else Except.ok (some
      { id := idStr
        name := nameStr
        brand := if (getCell row 2).truthy = true then some (jsTrim ((getCell row 2).toStr)) else none
        unit := unitStr
        qtyRemaining := qty
        avgDailyConsumption := parseNum (getCell row 5)
        avgMonthlyConsumption := parseNum (getCell row 6)
        lastReplenishedAt := parseDate (getCell row 7)
        autoSubscription :=
          if getCell row 8 = CellV.boolv true ∨ getCell row 8 = CellV.str "TRUE" then
            some { active := true
                   details :=
                     if (getCell row 9).truthy = true then some ((getCell row 9).toStr)
                     else none }
          else none
        buy :=
          if (getCell row 10).truthy = true ∨ (getCell row 11).truthy = true then
            some { place := if (getCell row 10).truthy = true then some ((getCell row 10).toStr) else none
                   url := if (getCell row 11).truthy = true then some ((getCell row 11).toStr) else none }
          else none
        leadTimeDays := (parseNum (getCell row 12)).getD 2
        safetyStockDays := (parseNum (getCell row 13)).getD 3
        minOrderQty := parseNum (getCell row 14)
        packSize := parseNum (getCell row 15)
        needsReplenishment := parseBoolean (getCell row 16)
        replenishByDate := parseDate (getCell row 17)
        recommendedOrderQty := parseNum (getCell row 18)
        reason := if (getCell row 19).truthy = true then some (jsTrim ((getCell row 19).toStr)) else none
        lastCheckAt := parseDate (getCell row 20) })

/-- The parsing loop of `GoogleSheetsInventoryRepository.listProducts`:
thrown rows are caught and skipped, null rows are not pushed. -/
def listProducts (dataRows : List (List CellV)) : List Product :=
  dataRows.filterMap (fun r =>
    match rowToProduct r with
    | Except.ok (some p) => some p
    | Except.ok none => none
    | Except.error _ => none)

/-! Concrete fixtures used by counterexamples and witnesses. -/

/-- A minimal structurally-valid product; fixtures below override fields. -/
def baseProduct : Product :=
  { id := "p1"
    name := "Item"
    brand := none
    unit := "count"
    qtyRemaining := 0
    avgDailyConsumption := none
    avgMonthlyConsumption := none
    lastReplenishedAt := none
    autoSubscription := none
    buy := none
    leadTimeDays := 2
    safetyStockDays := 3
    minOrderQty := none
    packSize := none
    needsReplenishment := false
    replenishByDate := none
    recommendedOrderQty := none
    reason := none
    lastCheckAt := none }

/-- The spec's worked example: 30 ml remaining, 8 per day, lead 2, safety 3,
pack size 250. -/
def exP : Product :=
  { baseProduct with unit := "ml", qtyRemaining := 30,
                     avgDailyConsumption := some 8, packSize := some 250 }

/-- Engine options with `now` at the epoch and no overrides. -/
def exOpts : PolicyOptions :=
  { now := 0, reviewHorizonDays := none, overrideTargetWindowDays := none,
    autoDecrementStock := true }

/-- Zero stock recorded, replenished one day after `now`, rate 1 per day. -/
def c2P : Product :=
  { baseProduct with qtyRemaining := 0, lastReplenishedAt := some 86400000,
                     avgDailyConsumption := some 1 }

/-- Depleted item with `minOrderQty = 2` and `packSize = 3`. -/
def c5P : Product :=
  { baseProduct with qtyRemaining := 0, minOrderQty := some 2, packSize := some 3 }

/-- Witness fixture for stock projection: 10 remaining, replenished at the
epoch, rate 1 per day, evaluated one day later. -/
def w2P : Product :=
  { baseProduct with qtyRemaining := 10, lastReplenishedAt := some 0,
                     avgDailyConsumption := some 1 }

/-- Options evaluating one day after the epoch. -/
def w2Opts : PolicyOptions :=
  { now := 86400000, reviewHorizonDays := none, overrideTargetWindowDays := none,
    autoDecrementStock := true }

/-- Auto-subscribed item with stock 5 and rate 1. -/
def c4P : Product :=
  { baseProduct with qtyRemaining := 5, avgDailyConsumption := some 1,
                     autoSubscription := some { active := true, details := none } }

/-- The spec example with a minimum order quantity set. -/
def w5P : Product :=
  { exP with minOrderQty := some 3 }

/-- Default overrides: nothing set. -/
def exOverrides : PolicyOverrides :=
  { reviewHorizonDays := none, overrideTargetWindowDays := none,
    autoDecrementStock := none, updateCalculatedQuantities := false }

/-- A sheet row whose quantity cell is absent (the row has only four cells). -/
def c9Row : List CellV :=
  [CellV.str "p1", CellV.str "Milk", CellV.null, CellV.str "ml"]

/-- A structurally valid five-cell row. -/
def w9Row : List CellV :=
  [CellV.str "w1", CellV.str "Soap", CellV.null, CellV.str "count", CellV.num 4]

/-- The product `w9Row` parses to. -/
def w9P : Product :=
  { baseProduct with id := "w1", name := "Soap", qtyRemaining := 4 }

/-- A row with no id cell. -/
def w9BadRow : List CellV :=
  [CellV.null, CellV.str "X", CellV.null, CellV.str "g"]


/-! Helper lemmas. -/

theorem jsMax_eq_max (a b : ℚ) : jsMax a b = max a b := by
  rw [jsMax, max_def]

theorem le_ratCeil (q : ℚ) : q ≤ (Rat.ceil q : ℚ) := by
  rw [Rat.ceil]
  split
  case isTrue h =>
    have hq : ((q.num : ℚ)) = q := by
      have := Rat.num_div_den q
      rw [h] at this
      simpa using this
    exact le_of_eq hq.symm
  case isFalse h =>
    have hfl : ((q.num / (q.den : ℤ) : ℤ) : ℚ) = ((Int.floor q : ℤ) : ℚ) := by
      rw [Rat.floor_def]
    have h1 : q < ((Int.floor q : ℤ) : ℚ) + 1 := Int.lt_floor_add_one q
    calc q ≤ ((Int.floor q : ℤ) : ℚ) + 1 := le_of_lt h1
    _ = ((q.num / (q.den : ℤ) : ℤ) : ℚ) + 1 := by rw [hfl]
    _ = (((q.num / (q.den : ℤ) + 1 : ℤ)) : ℚ) := by push_cast; ring

theorem computeDecision_currentStock (p : Product) (o : PolicyOptions) :
    (computeDecision p o).currentStock = currentStockOf p o := by
  unfold computeDecision
  dsimp only
  split
  · rfl
  · split
    · split <;> rfl
    · split <;> rfl

theorem usableRate_of_pos {r : ℚ} (h : 0 < r) (a : Option ℚ) (ha : a = some r) :
    usableRate a = some r := by
  rw [ha, usableRate]
  simp [h]

/-! Claim theorems. -/

/-- C1: for an item without active auto-subscription and with a positive
effective daily rate, the decision has
`daysUntilDepletion = currentStock / effectiveDaily`, needs replenishment
exactly when that is at most the effective target window
(`overrideTargetWindowDays` when provided, else lead time plus safety
stock); when it does, the reason is WITHIN_TARGET_WINDOW and the
recommended quantity is the order constraints applied to
`ceil(max(0, (targetWindowDays + reviewHorizonDays) * effectiveDaily -
currentStock))`; when it does not, the reason is SUFFICIENT_STOCK and
quantity and date are null. -/
theorem c1_normal_case (p : Product) (o : PolicyOptions)
    (hauto : p.hasAutoSubscription = false)
    (r : ℚ) (hr : p.getAvgDailyConsumption = some r) (hrpos : 0 < r) :
    (computeDecision p o).daysUntilDepletion = some (currentStockOf p o / r) ∧
    ((computeDecision p o).needsReplenishment = true ↔
      currentStockOf p o / r ≤ effectiveTargetWindowDays o.overrideTargetWindowDays p) ∧
    (currentStockOf p o / r ≤ effectiveTargetWindowDays o.overrideTargetWindowDays p →
      (computeDecision p o).reason = Reason.withinTargetWindow ∧
      (computeDecision p o).recommendedOrderQty =
        some (applyOrderConstraints
          ((Rat.ceil (jsMax 0 ((effectiveTargetWindowDays o.overrideTargetWindowDays p +
              effectiveReviewHorizonDays o.reviewHorizonDays) * r - currentStockOf p o)) : ℚ))
          p)) ∧
    (¬ currentStockOf p o / r ≤ effectiveTargetWindowDays o.overrideTargetWindowDays p →
      (computeDecision p o).reason = Reason.sufficientStock ∧
      (computeDecision p o).recommendedOrderQty = none ∧
      (computeDecision p o).replenishByDate = none) := by
  have hu := usableRate_of_pos hrpos _ hr
  by_cases hle :
      currentStockOf p o / r ≤ effectiveTargetWindowDays o.overrideTargetWindowDays p
  · simp [computeDecision, hauto, hu, hle]
  · simp [computeDecision, hauto, hu, hle]

/-- C1 witness: the spec example (30 ml, 8 per day, lead 2, safety 3,
pack 250, review default 14) is within its 5-day window and yields a
recommendation of 250. -/
theorem c1_witness :
    (computeDecision exP exOpts).daysUntilDepletion = some (15 / 4) ∧
    (computeDecision exP exOpts).reason = Reason.withinTargetWindow ∧
    (computeDecision exP exOpts).recommendedOrderQty = some 250 := by
  have h := c1_normal_case exP exOpts (by norm_num [Product.hasAutoSubscription, exP, baseProduct])
    8 (by norm_num [Product.getAvgDailyConsumption, Product.monthlyDaily, exP, baseProduct])
    (by norm_num)
  have hle : currentStockOf exP exOpts / 8 ≤
      effectiveTargetWindowDays exOpts.overrideTargetWindowDays exP := by
    norm_num [currentStockOf, Product.calculateCurrentStock, effectiveTargetWindowDays,
      exP, exOpts, baseProduct]
  refine ⟨h.1.trans ?_, (h.2.2.1 hle).1, (h.2.2.1 hle).2.trans ?_⟩
  · norm_num [currentStockOf, Product.calculateCurrentStock, exP, exOpts, baseProduct]
  · norm_num [currentStockOf, Product.calculateCurrentStock, effectiveTargetWindowDays,
      effectiveReviewHorizonDays, applyOrderConstraints, jsMax, jsOrQ, Rat.ceil,
      exP, exOpts, baseProduct]

/-- C2 counterexample: at `qtyRemaining = 0` with a replenishment recorded
one day after `now` and rate 1 per day, the claimed projection
`max(0, quantityRemaining - effectiveDaily * daysElapsed)` is 1, but the
code returns the stored quantity 0: the guard `!this.qtyRemaining` skips
projection for a zero quantity. -/
theorem c2_counterexample :
    c2P.lastReplenishedAt = some 86400000 ∧
    c2P.getAvgDailyConsumption = some 1 ∧
    exOpts.autoDecrementStock = true ∧
    (computeDecision c2P exOpts).currentStock = 0 ∧
    jsMax 0 (c2P.qtyRemaining - 1 * ((exOpts.now - 86400000) / msPerDay)) = 1 ∧
    (0 : ℚ) ≠ 1 := by
  refine ⟨rfl, ?_, rfl, ?_, ?_, by norm_num⟩
  · norm_num [Product.getAvgDailyConsumption, Product.monthlyDaily, c2P, baseProduct]
  · rw [computeDecision_currentStock]
    norm_num [currentStockOf, Product.calculateCurrentStock, c2P, exOpts, baseProduct]
  · norm_num [jsMax, msPerDay, c2P, exOpts, baseProduct]

/-- C2 amended: when projection is enabled, a replenishment timestamp is
recorded, the stored quantity is nonzero, and the effective daily rate is
positive, the decision's current stock is
`max(0, quantityRemaining - effectiveDaily * daysElapsed)`; in every other
case — projection disabled, no replenishment timestamp, no positive rate,
or a stored quantity of exactly 0 — it is the stored quantity. -/
theorem c2_current_stock (p : Product) (o : PolicyOptions) :
    (o.autoDecrementStock = true →
      ∀ last, p.lastReplenishedAt = some last →
      p.qtyRemaining ≠ 0 →
      ∀ r, p.getAvgDailyConsumption = some r → 0 < r →
      (computeDecision p o).currentStock =
        jsMax 0 (p.qtyRemaining - r * ((o.now - last) / msPerDay))) ∧
    (o.autoDecrementStock = false → (computeDecision p o).currentStock = p.qtyRemaining) ∧
    (p.lastReplenishedAt = none → (computeDecision p o).currentStock = p.qtyRemaining) ∧
    (p.qtyRemaining = 0 → (computeDecision p o).currentStock = p.qtyRemaining) ∧
    (p.getAvgDailyConsumption = none → (computeDecision p o).currentStock = p.qtyRemaining) := by
  rw [computeDecision_currentStock]
  refine ⟨?_, ?_, ?_, ?_, ?_⟩
  · intro hd last hlast hq r hr hrpos
    simp only [currentStockOf, hd, if_true, Product.calculateCurrentStock, hlast, hr]
    rw [if_neg hq, if_neg (not_le.mpr hrpos)]
  · intro hd
    rw [currentStockOf, hd]
    simp
  · intro hlast
    rw [currentStockOf]
    split
    · simp only [Product.calculateCurrentStock, hlast]
    · rfl
  · intro hq
    rw [currentStockOf]
    split
    · rw [Product.calculateCurrentStock]
      split
      · rfl
      · rw [if_pos hq]
    · rfl
  · intro hr
    rw [currentStockOf]
    split
    · rw [Product.calculateCurrentStock]
      split
      · rfl
      · split
        · rfl
        · simp only [hr]
    · rfl

/-- C2 amended witness: 10 units, replenished at the epoch, rate 1 per day,
evaluated one day later: projected stock 9. -/
theorem c2_witness : (computeDecision w2P w2Opts).currentStock = 9 := by
  have h := (c2_current_stock w2P w2Opts).1 rfl 0 rfl (by norm_num [w2P, baseProduct])
    1 (by norm_num [Product.getAvgDailyConsumption, Product.monthlyDaily, w2P, baseProduct])
    (by norm_num)
  rw [h]
  norm_num [jsMax, msPerDay, w2P, w2Opts, baseProduct]

/-- C3: an item without active auto-subscription whose effective daily rate
is null or nonpositive gets, when current stock is at most 0, a positive
DEPLETED_OR_INVALID decision with quantity
`max(1, minOrderQty or packSize or 1)` (hence at least 1) and null date and
depletion fields; otherwise a negative INSUFFICIENT_CONSUMPTION_DATA
decision with all quantity, date and depletion fields null. -/
theorem c3_no_rate (p : Product) (o : PolicyOptions)
    (hauto : p.hasAutoSubscription = false)
    (hr : ∀ r, p.getAvgDailyConsumption = some r → r ≤ 0) :
    (currentStockOf p o ≤ 0 →
      (computeDecision p o).needsReplenishment = true ∧
      (computeDecision p o).reason = Reason.depletedOrInvalid ∧
      (computeDecision p o).recommendedOrderQty =
        some (jsMax 1 (jsOrQ p.minOrderQty (jsOrQ p.packSize 1))) ∧
      (∀ q, (computeDecision p o).recommendedOrderQty = some q → 1 ≤ q) ∧
      (computeDecision p o).replenishByDate = none ∧
      (computeDecision p o).daysUntilDepletion = none) ∧
    (¬ currentStockOf p o ≤ 0 →
      (computeDecision p o).needsReplenishment = false ∧
      (computeDecision p o).reason = Reason.insufficientConsumptionData ∧
      (computeDecision p o).recommendedOrderQty = none ∧
      (computeDecision p o).replenishByDate = none ∧
      (computeDecision p o).daysUntilDepletion = none) := by
  have hu : usableRate p.getAvgDailyConsumption = none := by
    cases hget : p.getAvgDailyConsumption with
    | none => rfl
    | some r =>
      have := hr r hget
      rw [usableRate]
      simp [not_lt.mpr this]
  have hone : (1 : ℚ) ≤ jsMax 1 (jsOrQ p.minOrderQty (jsOrQ p.packSize 1)) := by
    rw [jsMax_eq_max]
    exact le_max_left _ _
  refine ⟨?_, ?_⟩
  · intro hcs
    have hd : computeDecision p o =
        { needsReplenishment := true
          recommendedOrderQty := some (jsMax 1 (jsOrQ p.minOrderQty (jsOrQ p.packSize 1)))
          replenishByDate := none
          reason := Reason.depletedOrInvalid
          daysUntilDepletion := none
          currentStock := currentStockOf p o
          daysSinceReplenishment := p.getDaysSinceLastReplenishment o.now } := by
      simp [computeDecision, hauto, hu, hcs]
    rw [hd]
    refine ⟨rfl, rfl, rfl, ?_, rfl, rfl⟩
    intro q hq2
    have hq3 := Option.some.inj hq2
    rw [← hq3]
    exact hone
  · intro hcs
    have hd : computeDecision p o =
        { needsReplenishment := false
          recommendedOrderQty := none
          replenishByDate := none
          reason := Reason.insufficientConsumptionData
          daysUntilDepletion := none
          currentStock := currentStockOf p o
          daysSinceReplenishment := p.getDaysSinceLastReplenishment o.now } := by
      simp [computeDecision, hauto, hu, hcs]
    rw [hd]
    exact ⟨rfl, rfl, rfl, rfl, rfl⟩

/-- C3 witness: the base fixture has no rate and zero stock, so it needs
replenishment with recommended quantity 1. -/
theorem c3_witness :
    (computeDecision baseProduct exOpts).needsReplenishment = true ∧
    (computeDecision baseProduct exOpts).reason = Reason.depletedOrInvalid ∧
    (computeDecision baseProduct exOpts).recommendedOrderQty = some 1 := by
  have h := (c3_no_rate baseProduct exOpts rfl
    (by intro r hr; simp [Product.getAvgDailyConsumption, Product.monthlyDaily,
      baseProduct] at hr)).1
    (by norm_num [currentStockOf, Product.calculateCurrentStock, baseProduct, exOpts])
  refine ⟨h.1, h.2.1, h.2.2.1.trans ?_⟩
  norm_num [jsMax, jsOrQ, baseProduct]

/-- C4: an item with an active auto-subscription always gets a negative
AUTO_SUBSCRIPTION_ACTIVE decision with null quantity and date, and
`daysUntilDepletion = currentStock / effectiveDaily` exactly when the
effective daily rate exists (it is then positive), else null; no other
rule fires. -/
theorem c4_auto_subscription (p : Product) (o : PolicyOptions)
    (hauto : p.hasAutoSubscription = true) :
    (computeDecision p o).needsReplenishment = false ∧
    (computeDecision p o).reason = Reason.autoSubscriptionActive ∧
    (computeDecision p o).recommendedOrderQty = none ∧
    (computeDecision p o).replenishByDate = none ∧
    (∀ r, p.getAvgDailyConsumption = some r → 0 < r →
      (computeDecision p o).daysUntilDepletion = some (currentStockOf p o / r)) ∧
    (p.getAvgDailyConsumption = none → (computeDecision p o).daysUntilDepletion = none) := by
  refine ⟨?_, ?_, ?_, ?_, ?_, ?_⟩
  · simp [computeDecision, hauto]
  · simp [computeDecision, hauto]
  · simp [computeDecision, hauto]
  · simp [computeDecision, hauto]
  · intro r hr hrpos
    simp [computeDecision, hauto, usableRate_of_pos hrpos _ hr]
  · intro hr
    simp [computeDecision, hauto, hr, usableRate]

/-- C4 witness: an auto-subscribed item with stock 5 and rate 1 is never
flagged and reports 5 days until depletion. -/
theorem c4_witness :
    (computeDecision c4P exOpts).needsReplenishment = false ∧
    (computeDecision c4P exOpts).reason = Reason.autoSubscriptionActive ∧
    (computeDecision c4P exOpts).daysUntilDepletion = some 5 := by
  have h := c4_auto_subscription c4P exOpts rfl
  refine ⟨h.1, h.2.1, ?_⟩
  have h5 := h.2.2.2.2.1 1
    (by norm_num [Product.getAvgDailyConsumption, Product.monthlyDaily, c4P, baseProduct])
    (by norm_num)
  rw [h5]
  norm_num [currentStockOf, Product.calculateCurrentStock, c4P, exOpts, baseProduct]

/-! Branch equations for `computeDecision`, used by the remaining claims. -/

theorem computeDecision_auto_eq (p : Product) (o : PolicyOptions)
    (hauto : p.hasAutoSubscription = true) :
    computeDecision p o =
      { needsReplenishment := false
        recommendedOrderQty := none
        replenishByDate := none
        reason := Reason.autoSubscriptionActive
        daysUntilDepletion :=
          (usableRate p.getAvgDailyConsumption).map (fun r => currentStockOf p o / r)
        currentStock := currentStockOf p o
        daysSinceReplenishment := p.getDaysSinceLastReplenishment o.now } := by
  simp [computeDecision, hauto]

theorem computeDecision_depleted_eq (p : Product) (o : PolicyOptions)
    (hauto : p.hasAutoSubscription = false)
    (hu : usableRate p.getAvgDailyConsumption = none)
    (hcs : currentStockOf p o ≤ 0) :
    computeDecision p o =
      { needsReplenishment := true
        recommendedOrderQty := some (jsMax 1 (jsOrQ p.minOrderQty (jsOrQ p.packSize 1)))
        replenishByDate := none
        reason := Reason.depletedOrInvalid
        daysUntilDepletion := none
        currentStock := currentStockOf p o
        daysSinceReplenishment := p.getDaysSinceLastReplenishment o.now } := by
  simp [computeDecision, hauto, hu, hcs]

theorem computeDecision_insufficient_eq (p : Product) (o : PolicyOptions)
    (hauto : p.hasAutoSubscription = false)
    (hu : usableRate p.getAvgDailyConsumption = none)
    (hcs : ¬ currentStockOf p o ≤ 0) :
    computeDecision p o =
      { needsReplenishment := false
        recommendedOrderQty := none
        replenishByDate := none
        reason := Reason.insufficientConsumptionData
        daysUntilDepletion := none
        currentStock := currentStockOf p o
        daysSinceReplenishment := p.getDaysSinceLastReplenishment o.now } := by
  simp [computeDecision, hauto, hu, hcs]

theorem computeDecision_within_eq (p : Product) (o : PolicyOptions) (r : ℚ)
    (hauto : p.hasAutoSubscription = false)
    (hu : usableRate p.getAvgDailyConsumption = some r)
    (hle : currentStockOf p o / r ≤ effectiveTargetWindowDays o.overrideTargetWindowDays p) :
    computeDecision p o =
      { needsReplenishment := true
        recommendedOrderQty := some (applyOrderConstraints
          ((Rat.ceil (jsMax 0 ((effectiveTargetWindowDays o.overrideTargetWindowDays p +
              effectiveReviewHorizonDays o.reviewHorizonDays) * r - currentStockOf p o)) : ℚ))
          p)
        replenishByDate :=
          some (o.now + jsMax 0 (currentStockOf p o / r - p.leadTimeDays) * msPerDay)
        reason := Reason.withinTargetWindow
        daysUntilDepletion := some (currentStockOf p o / r)
        currentStock := currentStockOf p o
        daysSinceReplenishment := p.getDaysSinceLastReplenishment o.now } := by
  simp [computeDecision, hauto, hu, hle]

theorem computeDecision_sufficient_eq (p : Product) (o : PolicyOptions) (r : ℚ)
    (hauto : p.hasAutoSubscription = false)
    (hu : usableRate p.getAvgDailyConsumption = some r)
    (hle : ¬ currentStockOf p o / r ≤ effectiveTargetWindowDays o.overrideTargetWindowDays p) :
    computeDecision p o =
      { needsReplenishment := false
        recommendedOrderQty := none
        replenishByDate := none
        reason := Reason.sufficientStock
        daysUntilDepletion := some (currentStockOf p o / r)
        currentStock := currentStockOf p o
        daysSinceReplenishment := p.getDaysSinceLastReplenishment o.now } := by
  simp [computeDecision, hauto, hu, hle]

/-! Order-constraint lemmas. -/

theorem jsMaxArg_le_applyOrderConstraints (baseQty : ℚ) (p : Product) :
    jsMax baseQty (jsOrQ p.minOrderQty 1) ≤ applyOrderConstraints baseQty p := by
  cases hps : p.packSize with
  | none =>
    simp only [applyOrderConstraints, hps]
    exact le_refl _
  | some ps =>
    simp only [applyOrderConstraints, hps]
    by_cases h1 : 1 < ps
    · rw [if_pos h1]
      have hpos : 0 < ps := lt_trans one_pos h1
      have hceil := le_ratCeil (jsMax baseQty (jsOrQ p.minOrderQty 1) / ps)
      calc jsMax baseQty (jsOrQ p.minOrderQty 1)
          = jsMax baseQty (jsOrQ p.minOrderQty 1) / ps * ps := by
            rw [div_mul_cancel₀ _ (ne_of_gt hpos)]
      _ ≤ (Rat.ceil (jsMax baseQty (jsOrQ p.minOrderQty 1) / ps) : ℚ) * ps :=
            mul_le_mul_of_nonneg_right hceil (le_of_lt hpos)
    · rw [if_neg h1]

theorem min_le_jsMaxArg (baseQty : ℚ) (p : Product) (m : ℚ)
    (hm : p.minOrderQty = some m) :
    m ≤ jsMax baseQty (jsOrQ p.minOrderQty 1) := by
  rw [jsMax_eq_max, hm]
  by_cases h0 : m = 0
  · subst h0
    simp only [jsOrQ, if_pos rfl]
    exact le_trans zero_le_one (le_max_right baseQty 1)
  · simp only [jsOrQ, if_neg h0]
    exact le_max_right baseQty m

theorem min_le_applyOrderConstraints (baseQty : ℚ) (p : Product) (m : ℚ)
    (hm : p.minOrderQty = some m) : m ≤ applyOrderConstraints baseQty p :=
  le_trans (min_le_jsMaxArg baseQty p m hm) (jsMaxArg_le_applyOrderConstraints baseQty p)

theorem applyOrderConstraints_packMultiple (baseQty : ℚ) (p : Product) (ps : ℚ)
    (hps : p.packSize = some ps) (h1 : 1 < ps) :
    ∃ k : ℤ, applyOrderConstraints baseQty p = k * ps := by
  refine ⟨Rat.ceil (jsMax baseQty (jsOrQ p.minOrderQty 1) / ps), ?_⟩
  simp only [applyOrderConstraints, hps, if_pos h1]

/-- C5 counterexample: a depleted item with no consumption rate,
`minOrderQty = 2` and `packSize = 3` gets `recommendedOrderQty = 2`, which
is not an integer multiple of the pack size, because the
DEPLETED_OR_INVALID branch bypasses `_applyOrderConstraints`. -/
theorem c5_counterexample :
    (computeDecision c5P exOpts).recommendedOrderQty = some 2 ∧
    c5P.packSize = some 3 ∧ (1 : ℚ) < 3 ∧
    ¬ ∃ k : ℤ, (2 : ℚ) = k * 3 := by
  refine ⟨?_, rfl, by norm_num, ?_⟩
  · norm_num [computeDecision, currentStockOf, Product.calculateCurrentStock,
      Product.hasAutoSubscription, Product.getAvgDailyConsumption, Product.monthlyDaily,
      usableRate, jsMax, jsOrQ, c5P, exOpts, baseProduct]
  · rintro ⟨k, hk⟩
    have hk2 : (2 : ℤ) = k * 3 := by exact_mod_cast hk
    omega

/-- C5 amended: a non-null `recommendedOrderQty` is always at least
`minOrderQty` when set, in both branches that produce one; it is an
integer multiple of `packSize` (when greater than 1) in the
WITHIN_TARGET_WINDOW branch, but the DEPLETED_OR_INVALID branch's
`max(1, minOrderQty or packSize or 1)` need not be a pack multiple. -/
theorem c5_order_constraints (p : Product) (o : PolicyOptions) (q : ℚ)
    (hq : (computeDecision p o).recommendedOrderQty = some q) :
    (∀ m, p.minOrderQty = some m → m ≤ q) ∧
    ((computeDecision p o).reason = Reason.withinTargetWindow →
      ∀ ps, p.packSize = some ps → 1 < ps → ∃ k : ℤ, q = k * ps) := by
  by_cases hauto : p.hasAutoSubscription = true
  · rw [computeDecision_auto_eq p o hauto] at hq
    exact absurd hq (by simp)
  · have hauto2 : p.hasAutoSubscription = false := by simpa using hauto
    cases hu : usableRate p.getAvgDailyConsumption with
    | none =>
      by_cases hcs : currentStockOf p o ≤ 0
      · rw [computeDecision_depleted_eq p o hauto2 hu hcs] at hq ⊢
        have hqv := Option.some.inj hq
        constructor
        · intro m hm
          rw [← hqv, jsMax_eq_max, hm]
          by_cases h0 : m = 0
          · subst h0
            exact le_trans zero_le_one (le_max_left 1 _)
          · simp only [jsOrQ, if_neg h0]
            exact le_max_right 1 m
        · intro hreason
          exact absurd hreason (by simp)
      · rw [computeDecision_insufficient_eq p o hauto2 hu hcs] at hq
        exact absurd hq (by simp)
    | some r =>
      by_cases hle :
          currentStockOf p o / r ≤ effectiveTargetWindowDays o.overrideTargetWindowDays p
      · rw [computeDecision_within_eq p o r hauto2 hu hle] at hq ⊢
        have hqv := Option.some.inj hq
        constructor
        · intro m hm
          rw [← hqv]
          exact min_le_applyOrderConstraints _ p m hm
        · intro _ ps hps h1
          rw [← hqv]
          exact applyOrderConstraints_packMultiple _ p ps hps h1
      · rw [computeDecision_sufficient_eq p o r hauto2 hu hle] at hq
        exact absurd hq (by simp)

/-- C5 amended witness: the spec example with `minOrderQty = 3` recommends
250, which is at least 3 and a multiple of the 250 pack. -/
theorem c5_witness :
    (3 : ℚ) ≤ 250 ∧ ∃ k : ℤ, (250 : ℚ) = k * 250 := by
  have hq : (computeDecision w5P exOpts).recommendedOrderQty = some 250 := by
    norm_num [computeDecision, currentStockOf, Product.calculateCurrentStock,
      Product.hasAutoSubscription, Product.getAvgDailyConsumption, Product.monthlyDaily,
      usableRate, effectiveTargetWindowDays, effectiveReviewHorizonDays,
      applyOrderConstraints, jsMax, jsOrQ, Rat.ceil, w5P, exP, exOpts, baseProduct]
  have hreason : (computeDecision w5P exOpts).reason = Reason.withinTargetWindow := by
    norm_num [computeDecision, currentStockOf, Product.calculateCurrentStock,
      Product.hasAutoSubscription, Product.getAvgDailyConsumption, Product.monthlyDaily,
      usableRate, effectiveTargetWindowDays, w5P, exP, exOpts, baseProduct]
  have h := c5_order_constraints w5P exOpts 250 hq
  exact ⟨h.1 3 rfl, h.2 hreason 250 rfl (by norm_num)⟩

/-- C6: in the needs-replenishment normal case the engine emits
`now + max(0, daysUntilDepletion - leadTimeDays)` days, and the
orchestrator's result row carries exactly that instant truncated to its
calendar date with no time-of-day component. -/
theorem c6_replenish_by_date (p : Product) (o : PolicyOptions)
    (hauto : p.hasAutoSubscription = false)
    (r : ℚ) (hr : p.getAvgDailyConsumption = some r) (hrpos : 0 < r)
    (hneeds : currentStockOf p o / r ≤ effectiveTargetWindowDays o.overrideTargetWindowDays p) :
    (computeDecision p o).replenishByDate =
      some (o.now + jsMax 0 (currentStockOf p o / r - p.leadTimeDays) * msPerDay) ∧
    (mkResultItem p (computeDecision p o)).replenishByDate =
      some (dayOf (o.now + jsMax 0 (currentStockOf p o / r - p.leadTimeDays) * msPerDay)) := by
  have hu := usableRate_of_pos hrpos _ hr
  rw [computeDecision_within_eq p o r hauto hu hneeds]
  exact ⟨rfl, rfl⟩

/-- C6 witness: the spec example (30 remaining, 8 per day, lead 2) at
`now = 0` gets a replenish-by calendar date one day after `now`, the
truncation of `now + 1.75` days. -/
theorem c6_witness :
    exOpts.now = 0 ∧
    (mkResultItem exP (computeDecision exP exOpts)).replenishByDate = some 1 := by
  have h := c6_replenish_by_date exP exOpts
    (by norm_num [Product.hasAutoSubscription, exP, baseProduct])
    8 (by norm_num [Product.getAvgDailyConsumption, Product.monthlyDaily, exP, baseProduct])
    (by norm_num)
    (by norm_num [currentStockOf, Product.calculateCurrentStock, effectiveTargetWindowDays,
      exP, exOpts, baseProduct])
  refine ⟨rfl, h.2.trans ?_⟩
  norm_num [dayOf, jsMax, currentStockOf, Product.calculateCurrentStock, msPerDay,
    Rat.floor, exP, exOpts, baseProduct]

/-- C7: with notification enabled and no dry run, the Summary counts every
loaded item, its notified count is the number of rows with
`needsReplenishment = true`, the notification port receives exactly one
message for the whole batch whenever that number is positive, and the
message is built from exactly those rows; with no flagged row the port is
never invoked. -/
theorem c7_notification_batch (products : List Product) (now : ℚ)
    (ov : PolicyOverrides) (sp : Option String) :
    (execute products now ov ⟨true, false, sp⟩).summary.checkedCount = products.length ∧
    (execute products now ov ⟨true, false, sp⟩).summary.needsReplenishmentCount =
      ((execute products now ov ⟨true, false, sp⟩).summary.items.filter
        (fun i => i.needsReplenishment)).length ∧
    (0 < ((execute products now ov ⟨true, false, sp⟩).summary.items.filter
        (fun i => i.needsReplenishment)).length →
      (execute products now ov ⟨true, false, sp⟩).sendCalls =
        [buildEmailMessage
          ((execute products now ov ⟨true, false, sp⟩).summary.items.filter
            (fun i => i.needsReplenishment))
          now (jsOrStr sp "[Home Inventory]") false]) ∧
    (((execute products now ov ⟨true, false, sp⟩).summary.items.filter
        (fun i => i.needsReplenishment)).length = 0 →
      (execute products now ov ⟨true, false, sp⟩).sendCalls = []) := by
  refine ⟨by simp [execute], rfl, ?_, ?_⟩
  · intro hlen
    simp only [execute] at hlen ⊢
    rw [if_pos ⟨trivial, hlen⟩, if_neg (by simp)]
  · intro hlen
    simp only [execute] at hlen ⊢
    rw [if_neg]
    intro hcon
    rw [hlen] at hcon
    exact lt_irrefl 0 hcon.2

/-- C7 witness: a batch of one item that needs replenishment produces a
checked count of 1 and exactly one send call. -/
theorem c7_witness :
    (execute [exP] 0 exOverrides ⟨true, false, none⟩).summary.checkedCount = 1 ∧
    (execute [exP] 0 exOverrides ⟨true, false, none⟩).sendCalls.length = 1 := by
  have hneeds : (computeDecision exP (engineOpts 0 exOverrides)).needsReplenishment = true := by
    norm_num [computeDecision, engineOpts, exOverrides, currentStockOf,
      Product.calculateCurrentStock, Product.hasAutoSubscription,
      Product.getAvgDailyConsumption, Product.monthlyDaily, usableRate,
      effectiveTargetWindowDays, exP, baseProduct]
  have hlen : 0 < ((execute [exP] 0 exOverrides ⟨true, false, none⟩).summary.items.filter
      (fun i => i.needsReplenishment)).length := by
    simp only [execute, List.map_cons, List.map_nil, List.filter, mkResultItem, hneeds,
      List.length_cons]
    norm_num
  have h := c7_notification_batch [exP] 0 exOverrides none
  refine ⟨h.1, ?_⟩
  rw [h.2.2.1 hlen]
  rfl

/-- C8: a dry run invokes neither the persistence port nor the notification
port, and still returns the identical Summary a non-dry run would return. -/
theorem c8_dry_run (products : List Product) (now : ℚ) (ov : PolicyOverrides)
    (enabled : Bool) (sp : Option String) :
    (execute products now ov ⟨enabled, true, sp⟩).saveCalls = [] ∧
    (execute products now ov ⟨enabled, true, sp⟩).sendCalls = [] ∧
    (execute products now ov ⟨enabled, true, sp⟩).summary =
      (execute products now ov ⟨enabled, false, sp⟩).summary := by
  refine ⟨rfl, ?_, rfl⟩
  simp only [execute]
  split
  · rfl
  · rfl

/-- C10: with a non-empty batch and explicit zero overrides, the engine
evaluates every item against a 0-day target window and a 0-day review
horizon (null-only fallbacks), while the Summary's policy block reports the
first item's leadTimeDays + safetyStockDays and the default 14, because its
JS-or fallback treats 0 as absent. -/
theorem c10_zero_overrides (p0 : Product) (rest : List Product) (now : ℚ)
    (adec : Option Bool) (ucq : Bool) (ntf : NotificationOptions) :
    (execute (p0 :: rest) now ⟨some 0, some 0, adec, ucq⟩ ntf).summary.policy.targetWindowDays
      = p0.leadTimeDays + p0.safetyStockDays ∧
    (execute (p0 :: rest) now ⟨some 0, some 0, adec, ucq⟩ ntf).summary.policy.reviewHorizonDays
      = 14 ∧
    (∀ q : Product, effectiveTargetWindowDays (some 0) q = 0) ∧
    effectiveReviewHorizonDays (some 0) = 0 ∧
    (execute (p0 :: rest) now ⟨some 0, some 0, adec, ucq⟩ ntf).summary.items =
      (p0 :: rest).map (fun q =>
        mkResultItem q (computeDecision q (engineOpts now ⟨some 0, some 0, adec, ucq⟩))) := by
  refine ⟨rfl, rfl, fun q => rfl, rfl, rfl⟩

/-- Characterization of a successfully mapped row: every validation the
mapper and the `Product` constructor perform has passed, and the parsed
fields are the stated ones. -/
theorem rowToProduct_ok (row : List CellV) (p : Product)
    (h : rowToProduct row = Except.ok (some p)) :
    (getCell row 0).truthy = true ∧ (getCell row 1).truthy = true ∧
    (getCell row 3).truthy = true ∧
    p.id = jsTrim ((getCell row 0).toStr) ∧ p.id ≠ "" ∧
    p.name = jsTrim ((getCell row 1).toStr) ∧ p.name ≠ "" ∧
    p.unit = jsToLowerCase (jsTrim ((getCell row 3).toStr)) ∧
    (p.unit = "count" ∨ p.unit = "ml" ∨ p.unit = "g") ∧
    p.qtyRemaining = (parseNum (getCell row 4)).getD 0 ∧
    0 ≤ p.qtyRemaining := by
  rw [rowToProduct] at h
  split at h
  · exact absurd h (by simp)
  · split at h
    next hmiss => exact absurd h (by simp)
    next hmiss =>
      have htru := not_not.mp hmiss
      dsimp only at h
      split at h
      next hid => exact absurd h (by simp)
      next hid =>
        push_neg at hid
        split at h
        next hunit => exact absurd h (by simp)
        next hunit =>
          have hmem := not_not.mp hunit
          split at h
          next hqty => exact absurd h (by simp)
          next hqty =>
            have hp := Option.some.inj (Except.ok.inj h)
            rw [← hp]
            exact ⟨htru.1, htru.2.1, htru.2.2, rfl, hid.1, rfl, hid.2, rfl, hmem,
              rfl, not_lt.mp hqty⟩

/-- C9 counterexample: a four-cell row (quantity cell absent) with valid
id, name and unit is not excluded: it is parsed into a product whose
quantity is defaulted to 0, so a row missing the quantity field does reach
the engine. -/
theorem c9_counterexample :
    getCell c9Row 4 = CellV.null ∧
    (listProducts [c9Row]).length = 1 ∧
    (listProducts [c9Row]).map Product.qtyRemaining = [0] := by
  refine ⟨rfl, ?_, ?_⟩ <;> decide

/-- C9 amended: a row missing id, name or unit, or whose unit is not an
enumerated value, is excluded before reaching the engine, and every loaded
product is structurally valid (nonempty id and name, valid unit,
non-negative quantity); but a row whose quantity cell is missing is kept
with the quantity defaulted to 0 rather than excluded. -/
theorem c9_row_validation (rows : List (List CellV)) (row : List CellV) :
    ((getCell row 0).truthy = false ∨ (getCell row 1).truthy = false ∨
        (getCell row 3).truthy = false →
      ∀ p, rowToProduct row ≠ Except.ok (some p)) ∧
    (¬ (jsToLowerCase (jsTrim ((getCell row 3).toStr)) = "count" ∨
        jsToLowerCase (jsTrim ((getCell row 3).toStr)) = "ml" ∨
        jsToLowerCase (jsTrim ((getCell row 3).toStr)) = "g") →
      ∀ p, rowToProduct row ≠ Except.ok (some p)) ∧
    (getCell row 4 = CellV.null →
      ∀ p, rowToProduct row = Except.ok (some p) → p.qtyRemaining = 0) ∧
    (∀ p ∈ listProducts rows,
      p.id ≠ "" ∧ p.name ≠ "" ∧
      (p.unit = "count" ∨ p.unit = "ml" ∨ p.unit = "g") ∧ 0 ≤ p.qtyRemaining) := by
  refine ⟨?_, ?_, ?_, ?_⟩
  · intro hfalse p hok
    have hk := rowToProduct_ok row p hok
    rcases hfalse with hf | hf | hf
    · rw [hk.1] at hf
      exact absurd hf (by simp)
    · rw [hk.2.1] at hf
      exact absurd hf (by simp)
    · rw [hk.2.2.1] at hf
      exact absurd hf (by simp)
  · intro hbad p hok
    have hk := rowToProduct_ok row p hok
    apply hbad
    rw [← hk.2.2.2.2.2.2.2.1]
    exact hk.2.2.2.2.2.2.2.2.1
  · intro hcell p hok
    have hk := rowToProduct_ok row p hok
    rw [hk.2.2.2.2.2.2.2.2.2.1, hcell]
    rfl
  · intro p hp
    rw [listProducts, List.mem_filterMap] at hp
    obtain ⟨r, hr, hfr⟩ := hp
    have hok : rowToProduct r = Except.ok (some p) := by
      cases hrr : rowToProduct r with
      | error e =>
        rw [hrr] at hfr
        exact absurd hfr (by simp)
      | ok op =>
        cases op with
        | none =>
          rw [hrr] at hfr
          exact absurd hfr (by simp)
        | some q =>
          rw [hrr] at hfr
          simp only [Option.some.injEq] at hfr
          rw [hfr]
    have hk := rowToProduct_ok r p hok
    exact ⟨hk.2.2.2.2.1, hk.2.2.2.2.2.2.1, hk.2.2.2.2.2.2.2.2.1,
      hk.2.2.2.2.2.2.2.2.2.2⟩

/-- C9 amended witness: a row with no id is never parsed into a product,
and the product parsed from a valid row satisfies the structural
guarantees. -/
theorem c9_witness :
    rowToProduct w9BadRow ≠ Except.ok (some baseProduct) ∧
    (w9P.id ≠ "" ∧ w9P.name ≠ "" ∧
      (w9P.unit = "count" ∨ w9P.unit = "ml" ∨ w9P.unit = "g") ∧ 0 ≤ w9P.qtyRemaining) := by
  constructor
  · exact (c9_row_validation [] w9BadRow).1 (Or.inl (by decide)) baseProduct
  · exact (c9_row_validation [w9Row] w9Row).2.2.2 w9P (by decide)

end PantryPilot
